import Mathlib

/-!
# Verification of the drift driving-game core

Shallow embedding of the game's simulation core: the config/tunables store
(`src/assets/js/config.js`), the physics bridge (`updateCarPhysics`,
`getCarMaxSpeed` in the physics portion of `src/assets/js/config.js`), the
game orchestration module (`src/unnamed/part_001`: `animate`, `gameOver`,
`restartGame`, `resetGame`, `spawnCoin`, `collectCoin`, `levelUp`,
`startCoinSpawning`) and the obstacle spawner
(`createObstacles` in `src/assets/js/scene.js`).

Machine floats are modelled as exact rationals.  JavaScript division, whose
result is non-finite (NaN or plus/minus infinity) when the divisor is zero, is
modelled by `jsDiv` returning `Option` (`none` = non-finite).  The square
roots computed by the source (`Math.sqrt`, `Vector3.length`) are handled in
one of two faithful ways: comparisons of a square root against a nonnegative
bound are carried out on the squares (for `v ≥ 0`, `Real.sqrt v < c ↔ v < c^2`
when `c ≥ 0`), and the car-speed value `speed = Math.sqrt (vx^2 + vz^2)` is
passed to the embedded physics routine as an explicit argument constrained by
the hypotheses `0 ≤ speed` and `speed ^ 2 = vx ^ 2 + vz ^ 2` in the theorems.

JavaScript object identity (used by `Array.prototype.indexOf` and by the
scene graph) is modelled by a fresh numeric id per allocated record, drawn
from a counter carried in the game state.  `Math.random()` streams are passed
as explicit arguments.  DOM updates (innerText, styles), console logging,
the debug-visualization layer and the tire-track cosmetics have no bearing
on any game state read back by the code and are omitted.

Thrown exceptions are modelled by `Except GState GState`, the error case
carrying the state as mutated up to the throw (JS mutations persist across
a throw).  Three throw sites of the staged sources are modelled explicitly:
the collision-callback logging line that dereferences an unresolved lookup
(part_001 line 93), and two argument-count mismatches against the staged
`scene.js` signatures — `levelUp` passes six arguments to the
seven-parameter `createObstacles` (the new level binds to `isLoading`,
whose first use `isLoading.obstacles = true` throws on a number primitive
in strict mode), and part_001 passes nine arguments to the ten-parameter
`createScene` (its `RAPIER` parameter is `undefined`, so
`RAPIER.ColliderDesc` at scene.js line 29 throws).
-/

/-- The numeric tunables of `CONFIG` in `src/assets/js/config.js` that the
verified core reads.  The live-tuning panel may mutate the car/physics
fields, so the embedded functions take the store as a parameter. -/
structure Config where
  friction : ℚ
  rollingResistance : ℚ
  restitution : ℚ
  carMaxSpeed : ℚ
  engineForceMagnitude : ℚ
  reverseForceMagnitude : ℚ
  steeringFactor : ℚ
  handbrakeDamping : ℚ
  minDampening : ℚ
  maxDampening : ℚ
  coinValue : ℕ
  pointsToAdvance : ℕ
  boxIncreasePerLevel : ℕ
  maxLevel : ℕ
  coinBaseCount : ℕ
  groundSize : ℚ
deriving DecidableEq

/-- The source's default values of `CONFIG` (config.js lines 5-63). -/
def CONFIG : Config where
  friction := 3/4
  rollingResistance := 15/1000
  restitution := 1/5
  carMaxSpeed := 25
  engineForceMagnitude := 6
  reverseForceMagnitude := -4
  steeringFactor := 1/5
  handbrakeDamping := 1/2
  minDampening := 1/2
  maxDampening := 3/2
  coinValue := 10
  pointsToAdvance := 100
  boxIncreasePerLevel := 10
  maxLevel := 10
  coinBaseCount := 10
  groundSize := 100

/-- `getCarMaxSpeed(level)` (config.js physics portion, lines 88-96):
`multiplier = Math.min(base + (level - 1) * step, cap)` with `base = 1.0`,
`step = 0.25`, `cap = 2.0`, returning `CONFIG.car.maxSpeed * multiplier`. -/
def getCarMaxSpeed (cfg : Config) (level : ℕ) : ℚ :=
  cfg.carMaxSpeed * min (1 + ((level : ℚ) - 1) * (1/4)) 2


/-- A THREE.Vector3 value with exact rational components. -/
structure V3 where
  x : ℚ
  y : ℚ
  z : ℚ
deriving DecidableEq

/-- A THREE.Quaternion value with exact rational components. -/
structure Quat where
  x : ℚ
  y : ℚ
  z : ℚ
  w : ℚ
deriving DecidableEq

/-- `THREE.Vector3.applyQuaternion` (three r114): rotate `v` by `q`. -/
def qapply (q : Quat) (v : V3) : V3 :=
  let ix := q.w * v.x + q.y * v.z - q.z * v.y
  let iy := q.w * v.y + q.z * v.x - q.x * v.z
  let iz := q.w * v.z + q.x * v.y - q.y * v.x
  let iw := -q.x * v.x - q.y * v.y - q.z * v.z
  { x := ix * q.w + iw * (-q.x) + iy * (-q.z) - iz * (-q.y)
    y := iy * q.w + iw * (-q.y) + iz * (-q.x) - ix * (-q.z)
    z := iz * q.w + iw * (-q.z) + ix * (-q.y) - iy * (-q.x) }

/-- JavaScript floating-point division.  When the divisor is zero the JS
result is non-finite (`0/0 = NaN`, `x/0 = ±Infinity`), modelled as `none`;
otherwise the finite quotient. -/
def jsDiv (a b : ℚ) : Option ℚ :=
  if b = 0 then none else some (a / b)

/-- One call on the car's RAPIER rigid body made by `updateCarPhysics`.
Force components that flow through a JS division are `Option ℚ`
(`none` = non-finite). -/
inductive PhysCmd where
  | addForce (x y z : Option ℚ)
  | setLinvel (x y z : ℚ)
  | resetForces
  | torqueImpulse (x y z : ℚ)
  | applyImpulse (x y z : ℚ)
deriving DecidableEq

/-- The `controls` record of `src/assets/js/controls.js`. -/
structure CarCtl where
  forward : Bool
  reverse : Bool
  left : Bool
  right : Bool
  handbrake : Bool
deriving DecidableEq

/-- `getDampingFactor(speed)` (config.js physics portion, lines 170-174). -/
def getDampingFactor (cfg : Config) (speed : ℚ) : ℚ :=
  cfg.minDampening + (cfg.maxDampening - cfg.minDampening) * min (speed / cfg.carMaxSpeed) 1

/-- The drive-force accumulator `force` of `updateCarPhysics`: it stays zero
in the handbrake branch, otherwise the `forward`/`reverse` else-if chain may
add a forward-facing engine force or a reverse-facing force, each gated by
`absVel < maxSpeed`. -/
def driveForce (cfg : Config) (ctl : CarCtl) (speed maxSpeed : ℚ) (fd : V3) : V3 :=
  if ctl.handbrake then ⟨0, 0, 0⟩
  else if ctl.forward ∧ speed < maxSpeed then
    ⟨cfg.engineForceMagnitude * fd.x, cfg.engineForceMagnitude * fd.y,
      cfg.engineForceMagnitude * fd.z⟩
  else if ctl.reverse ∧ speed < maxSpeed then
    ⟨cfg.reverseForceMagnitude * fd.x, cfg.reverseForceMagnitude * fd.y,
      cfg.reverseForceMagnitude * fd.z⟩
  else ⟨0, 0, 0⟩

/-- `updateCarPhysics(carBody, carMesh, level, controls, tireTracksSystem)`
(config.js physics portion, lines 98-168), as the ordered list of calls it
makes on the car's rigid body.

* The guard `!carBody || (CONFIG.game.isOver && !CONFIG.game.isFalling)`
  returns early (the body is assumed present; `isOver`/`isFalling` are
  passed in).
* `absVel = |(vx, 0, vz)|` and `speed = Math.sqrt (vx^2 + vz^2)` are the
  same quantity; it is the `speed` argument (constrained by hypotheses in
  the theorems).
* The handbrake branch adds the force
  `(hbF * vx / speed, 0, hbF * vz / speed)` with
  `hbF = -handbrakeDamping * 0.2`; the divisions are JS divisions.
* `force.length() > 0` is carried out on the squared norm (equivalent for a
  nonnegative radicand).
* Tire-track bookkeeping and the final `tireTracksSystem.update` touch no
  physics or game state and are omitted. -/
def updateCarPhysics (cfg : Config) (isOver isFalling : Bool) (level : ℕ)
    (ctl : CarCtl) (vx vz speed : ℚ) (q : Quat) : List PhysCmd :=
  if isOver = true ∧ isFalling = false then []
  else
    let fd := qapply q ⟨0, 0, -1⟩
    let maxSpeed := getCarMaxSpeed cfg level
    let hbCmds :=
      if ctl.handbrake then
        let hbF := -cfg.handbrakeDamping * (1/5)
        [PhysCmd.addForce ((jsDiv vx speed).map (fun t => hbF * t)) (some 0)
            ((jsDiv vz speed).map (fun t => hbF * t))] ++
          (if speed < 1/5 then [PhysCmd.setLinvel 0 0 0] else [])
      else []
    let force := driveForce cfg ctl speed maxSpeed fd
    let forceCmds :=
      if 0 < force.x ^ 2 + force.y ^ 2 + force.z ^ 2 then
        [PhysCmd.addForce (some ((1 - cfg.rollingResistance) * force.x))
            (some ((1 - cfg.rollingResistance) * force.y))
            (some ((1 - cfg.rollingResistance) * force.z))]
      else [PhysCmd.resetForces]
    let steerCmds :=
      if (ctl.left = true ∨ ctl.right = true) ∧ 1/5 < speed then
        let steer : ℚ := (if ctl.left then 1 else 0) - (if ctl.right then 1 else 0)
        [PhysCmd.torqueImpulse 0 (steer * cfg.steeringFactor * speed) 0]
      else []
    let forwardSpeed := fd.x * vx + fd.y * 0 + fd.z * vz
    let lateral : V3 := ⟨vx - fd.x * forwardSpeed, 0 - fd.y * forwardSpeed,
      vz - fd.z * forwardSpeed⟩
    let damp := if ctl.handbrake then cfg.handbrakeDamping else getDampingFactor cfg speed
    hbCmds ++ forceCmds ++ steerCmds ++
      [PhysCmd.applyImpulse (-damp * lateral.x) 0 (-damp * lateral.z)]


/-- The `type` tag of a registered physics object. -/
inductive ObjType where
  | car
  | ground
  | obstacle
  | coin
deriving DecidableEq

/-- An entry of the `physicsObjects` registry: `{mesh, body, collider, type}`
plus the coin pickup flag `collected` (absent in JS until `collectCoin`
sets it; absent/undefined is modelled as `false`).  JS object identity —
what `indexOf` and `===` compare — is modelled by the fresh `recId`;
`meshId` identifies the visual (a coin's registry record and its `coins`
record are distinct objects sharing one mesh and body). -/
structure Entity where
  recId : ℕ
  meshId : ℕ
  bodyHandle : Option ℕ
  colliderHandle : Option ℕ
  etype : ObjType
  collected : Bool
  pos : ℚ × ℚ
deriving DecidableEq

/-- An entry of the `coins` array: `{mesh, body, sensor, collected}`, plus
the spawn position of the mesh. -/
structure CoinRec where
  recId : ℕ
  meshId : ℕ
  bodyHandle : ℕ
  sensorHandle : ℕ
  collected : Bool
  pos : ℚ × ℚ
deriving DecidableEq

/-- The module-level mutable state of `src/unnamed/part_001` together with
the physics-world body set and the scheduler state the claims read:
`points`, `level`, `CONFIG.game.isOver/isFalling`, the `physicsObjects`,
`coins` and `obstacleBoxes` arrays, the scene-graph mesh ids, the queued
zero-delay coin-removal continuations, and the `setInterval` bookkeeping
(`coinSpawnTimer` is the id of the last interval installed,
`activeTimers` the ids not yet cleared). `nextId`/`nextTimerId` are the
fresh-identity counters of the model. -/
structure GState where
  points : ℕ
  level : ℕ
  isOver : Bool
  isFalling : Bool
  physicsObjects : List Entity
  coins : List CoinRec
  obstacleBoxes : List Entity
  worldBodies : List ℕ
  scene : List ℕ
  pending : List Entity
  coinSpawnTimer : ℕ
  activeTimers : List ℕ
  nextTimerId : ℕ
  nextId : ℕ
deriving DecidableEq

/-- `array.indexOf(x)` followed by `splice(i, 1)`: remove the first element
satisfying `p`; a no-op when `indexOf` returns `-1`. -/
def removeFirst (p : α → Prop) [DecidablePred p] : List α → List α
  | [] => []
  | a :: rest => if p a then rest else a :: removeFirst p rest

/-- `physicsObjects.find(o => o.collider && o.collider.handle === handle)`
(part_001 lines 90-91). -/
def findByColliderHandle (objs : List Entity) (h : ℕ) : Option Entity :=
  objs.find? (fun o => o.colliderHandle = some h)

/-- `clearInterval(tid)`: the interval with that id no longer fires. -/
def clearTimerJS (s : GState) (tid : ℕ) : GState :=
  { s with activeTimers := s.activeTimers.filter (fun t => t ≠ tid) }

/-- `gameOver({falling})` (part_001 lines 139-154): an early return when
already over; otherwise sets `isOver`, sets `isFalling` to the argument and
clears the coin-spawn interval.  The game-over panel DOM changes and the
restart key listener are outside the model. -/
def gameOver (s : GState) (falling : Bool) : GState :=
  if s.isOver then s
  else { (clearTimerJS s s.coinSpawnTimer) with isOver := true, isFalling := falling }

/-- `resetGame()` (part_001 lines 179-199): `points = 0`, `level = 1`,
`CONFIG.game.isOver = false` (note: `isFalling` is NOT touched), the three
arrays are emptied in place and every scene child is removed.  DOM counter
updates omitted. -/
def resetGame (s : GState) : GState :=
  { s with points := 0, level := 1, isOver := false,
           physicsObjects := [], coins := [], obstacleBoxes := [], scene := [] }

/-- One obstacle created by the loop body of `createObstacles` (scene.js
lines 210-231): a 1x1x1 box mesh at `((r1-0.5)*100, 0.5, (r2-0.5)*100)`, a
fixed rigid body there and a cuboid collider with collision events enabled.
One record is pushed into both `physicsObjects` and `obstacleBoxes`.
Iteration `i` allocates ids `base+4i` (record), `+1` (mesh), `+2` (body),
`+3` (collider); the random color draw is visual-only and omitted. -/
def mkObstacle (base i : ℕ) (r : ℚ × ℚ) : Entity :=
  { recId := base + 4*i
    meshId := base + 4*i + 1
    bodyHandle := some (base + 4*i + 2)
    colliderHandle := some (base + 4*i + 3)
    etype := ObjType.obstacle
    collected := false
    pos := ((r.1 - 1/2) * 100, (r.2 - 1/2) * 100) }

/-- The JS value bound to the `isLoading` parameter of `createObstacles`
(scene.js line 207 declares `createObstacles(RAPIER, world, scene,
physicsObjects, obstacleBoxes, isLoading, level = 1)`): an extensible
object at a correct call, or — at the six-argument call in `levelUp`
(part_001 lines 317-325), which omits it — the number that was meant to be
the level. -/
inductive LoadArg where
  | record
  | number (n : ℕ)
deriving DecidableEq

/-- `createObstacles(RAPIER, world, scene, physicsObjects, obstacleBoxes,
isLoading, level = 1)` (scene.js lines 207-245).  Its first statement,
`isLoading.obstacles = true` (line 208), assigns a property: on an object
it succeeds and the loop appends `level * boxIncreasePerLevel` obstacles
(nothing is removed or modified; `rnd i` is the pair of position draws of
iteration `i`); when a number sits in the `isLoading` position — the
misbound call in `levelUp` — the assignment on a primitive throws a
TypeError (ES modules run in strict mode) and nothing is spawned.  The
thrown state is carried by `Except.error`. -/
def createObstacles (cfg : Config) (s : GState) (rnd : ℕ → ℚ × ℚ)
    (isLoading : LoadArg) (level : ℕ := 1) : Except GState GState :=
  match isLoading with
  | LoadArg.number _ => Except.error s
  | LoadArg.record =>
    let count := level * cfg.boxIncreasePerLevel
    let batch := (List.range count).map (fun i => mkObstacle s.nextId i (rnd i))
    Except.ok
      { s with physicsObjects := s.physicsObjects ++ batch
               obstacleBoxes := s.obstacleBoxes ++ batch
               worldBodies := s.worldBodies ++ batch.filterMap (fun e => e.bodyHandle)
               scene := s.scene ++ batch.map (fun e => e.meshId)
               nextId := s.nextId + 4*count }

/-- `levelUp()` (part_001 lines 313-331): `level++`, a DOM update, then
`createObstacles(RAPIER, world, scene, physicsObjects, obstacleBoxes,
level)` — six arguments against the seven-parameter signature of scene.js
line 207, so the incremented level binds to `isLoading` and `level` takes
its default `1`.  `createObstacles` therefore throws on its first
statement: the level increment survives, but no obstacle is ever spawned
on a level-up and the TypeError escapes `levelUp`. -/
def levelUp (cfg : Config) (s : GState) (rnd : ℕ → ℚ × ℚ) : Except GState GState :=
  let s' := { s with level := s.level + 1 }
  createObstacles cfg s' rnd (LoadArg.number s'.level) 1

/-- `collectCoin(coin)` (part_001 lines 286-311), invoked with the
`physicsObjects` record of the coin.  Synchronously: `coin.collected =
true`, `scene.remove(coin.mesh)`, `points += CONFIG.coins.value`, and
`levelUp()` when the new total reaches `level * pointsToAdvance` with the
level below `maxLevel`.  The `setTimeout(..., 0)` scheduling the
structural removal (line 296; modelled by queueing the coin on `pending`,
with `runCoinRemoval` the continuation) sits AFTER the `levelUp()` call of
line 294: when `levelUp` throws — which, via the `isLoading` misbinding,
it always does — the exception escapes `collectCoin` with the removal
never scheduled.  `renderPlusTen` and the DOM counters are omitted. -/
def collectCoin (cfg : Config) (s : GState) (coin : Entity) (rnd : ℕ → ℚ × ℚ) :
    Except GState GState :=
  let s1 := { s with
    physicsObjects := s.physicsObjects.map
      (fun e => if e.recId = coin.recId then { e with collected := true } else e)
    scene := removeFirst (fun m => m = coin.meshId) s.scene
    points := s.points + cfg.coinValue }
  match (if s1.points ≥ s1.level * cfg.pointsToAdvance ∧ s1.level < cfg.maxLevel then
           levelUp cfg s1 rnd
         else Except.ok s1) with
  | Except.error s2 => Except.error s2
  | Except.ok s2 => Except.ok { s2 with pending := s2.pending ++ [coin] }

/-- The deferred `setTimeout(..., 0)` continuation of `collectCoin`
(part_001 lines 296-307): splice the coin out of `coins` and
`physicsObjects` (first identity match, no-op when `indexOf` misses — the
`coins` splice compares the registry record against coin records, distinct
objects, so it never matches; kept as in the source) and remove the coin's
rigid body from the physics world. -/
def runCoinRemoval (s : GState) (coin : Entity) : GState :=
  { s with coins := removeFirst (fun c => c.recId = coin.recId) s.coins
           physicsObjects := removeFirst (fun e => e.recId = coin.recId) s.physicsObjects
           pending := removeFirst (fun e => e.recId = coin.recId) s.pending
           worldBodies :=
             match coin.bodyHandle with
             | some h => s.worldBodies.filter (fun b => b ≠ h)
             | none => s.worldBodies }

/-- The position-sampling `do { ... } while (dist < 10)` loop of
`spawnCoin` (part_001 lines 218-223): each draw is
`((r1-0.5)*80, (r2-0.5)*80)`; the loop repeats while
`Math.sqrt(x^2+z^2) < 10`, equivalently while `x^2+z^2 < 100`.  The input
list is the stream of `Math.random()` pairs; `none` models exhausting the
stream (the source loop would keep drawing forever on an all-rejected
stream). -/
def pickPos : List (ℚ × ℚ) → Option (ℚ × ℚ)
  | [] => none
  | r :: rest =>
    let posX := (r.1 - 1/2) * 80
    let posZ := (r.2 - 1/2) * 80
    if posX^2 + posZ^2 < 100 then pickPos rest else some (posX, posZ)

/-- `spawnCoin()` (part_001 lines 201-276): rejected (an early return,
leaving every piece of state unchanged) when the game is over or
`coins.length > coinBaseCount * level`.  Otherwise: picks a position, adds
the coin mesh to the scene, creates a spinning gravity-free rigid body
with a solid collider and a sensor collider (events enabled), pushes
`{mesh, body, sensor, collected: false}` onto `coins` and
`{mesh, body, collider: sensor, type: coin}` onto `physicsObjects`.  Ids
allocated from the counter: mesh, coin record, registry record, body,
solid collider, sensor collider.  DOM counter updates omitted. -/
def spawnCoin (cfg : Config) (s : GState) (samples : List (ℚ × ℚ)) : Option GState :=
  if s.isOver = true ∨ s.coins.length > cfg.coinBaseCount * s.level then some s
  else
    match pickPos samples with
    | none => none
    | some p =>
      some { s with
        scene := s.scene ++ [s.nextId]
        coins := s.coins ++ [⟨s.nextId + 1, s.nextId, s.nextId + 3, s.nextId + 5, false, p⟩]
        physicsObjects := s.physicsObjects ++
          [⟨s.nextId + 2, s.nextId, some (s.nextId + 3), some (s.nextId + 5),
            ObjType.coin, false, p⟩]
        worldBodies := s.worldBodies ++ [s.nextId + 3]
        nextId := s.nextId + 6 }

/-- The five immediate `spawnCoin()` calls of `startCoinSpawning` (the
`Array.from({length: 5}).forEach` loop); `samples k` is the random stream
consumed by the `k`-th call. -/
def spawnCoinTimes (cfg : Config) (samples : ℕ → List (ℚ × ℚ)) :
    ℕ → GState → Option GState
  | 0, s => some s
  | n + 1, s =>
    match spawnCoin cfg s (samples n) with
    | none => none
    | some s' => spawnCoinTimes cfg samples n s'

/-- `startCoinSpawning()` (part_001 lines 124-129): installs a fresh
`setInterval(spawnCoin, spawnInterval)` (recording its id in
`coinSpawnTimer`) and then calls `spawnCoin` five times. -/
def startCoinSpawning (cfg : Config) (s : GState) (samples : ℕ → List (ℚ × ℚ)) :
    Option GState :=
  let s1 := { s with coinSpawnTimer := s.nextTimerId
                     activeTimers := s.nextTimerId :: s.activeTimers
                     nextTimerId := s.nextTimerId + 1 }
  spawnCoinTimes cfg samples 5 s1

/-- `createScene(world, scene, physicsObjects, carMesh, carBody,
carCollider, level, obstacleBoxes, isLoading, RAPIER)` (scene.js lines
5-188) as invoked from part_001 (lines 29-37 and 163-171), which passes
only NINE arguments: the RAPIER module binds to `isLoading` and the
`RAPIER` parameter is `undefined`.  The body runs up to the ground mesh:
the mesh is created and added to the scene (scene.js lines 18-23), then
`RAPIER.ColliderDesc` at line 29 throws a TypeError on `undefined` —
before any rigid body, collider, registry entry or obstacle exists.  The
thrown state (ground mesh in the scene, nothing else) is carried by
`Except.error`.  `cfg` and `rnd` are the values a completing call would
consume; the staged call never reaches them. -/
def createScene (cfg : Config) (s : GState) (rnd : ℕ → ℚ × ℚ) : Except GState GState :=
  Except.error { s with scene := s.scene ++ [s.nextId], nextId := s.nextId + 1 }

/-- `restartGame()` (part_001 lines 155-177): removes the restart key
listener (DOM), `clearInterval(coinSpawnTimer)`, `resetGame()`, then calls
`createScene` — which, as called here (nine arguments, `RAPIER`
parameter `undefined`), throws.  The TypeError escapes `restartGame`: the
scene is never rebuilt, the `startCoinSpawning()` of line 172 is never
reached and no new coin-spawn interval is installed.  The success
continuation is kept for the (unreachable) completing path; `none` there
models spawn-loop nontermination. -/
def restartGame (cfg : Config) (s : GState) (rnd : ℕ → ℚ × ℚ)
    (samples : ℕ → List (ℚ × ℚ)) : Option (Except GState GState) :=
  let s1 := clearTimerJS s s.coinSpawnTimer
  let s2 := resetGame s1
  match createScene cfg s2 rnd with
  | Except.error s3 => some (Except.error s3)
  | Except.ok s3 =>
    match startCoinSpawning cfg s3 samples with
    | none => none
    | some s4 => some (Except.ok s4)

/-- The per-frame boundary check of `animate` (part_001 lines 72-85) with
its gate: game logic runs only while `!isOver || (isOver && isFalling)`;
inside, `gameOver({falling: true})` fires when
`|x| > groundSize/2 || |z| > groundSize/2` for the car position read from
the body.  The physics step, force application and event drain of the same
frame are modelled separately. -/
def boundaryFrame (cfg : Config) (s : GState) (pos : ℚ × ℚ) : GState :=
  if s.isOver = false ∨ (s.isOver = true ∧ s.isFalling = true) then
    if cfg.groundSize / 2 < |pos.1| ∨ cfg.groundSize / 2 < |pos.2| then
      gameOver s true
    else s
  else s

/-- The typed dispatch of the collision callback of `animate` (part_001
lines 96-105), reached after both handles resolved: a car-coin pair with
the coin not yet collected triggers `collectCoin` (whose exception, if
any, propagates); a car-obstacle pair triggers `gameOver({falling:
false})`; every other pair is ignored. -/
def dispatchPair (cfg : Config) (s : GState) (rnd : ℕ → ℚ × ℚ) (o1 o2 : Entity) :
    Except GState GState :=
  if o1.etype = ObjType.car ∨ o2.etype = ObjType.car then
    let other := if o1.etype = ObjType.car then o2 else o1
    if other.etype = ObjType.coin ∧ other.collected = false then
      collectCoin cfg s other rnd
    else if other.etype = ObjType.obstacle then Except.ok (gameOver s false)
    else Except.ok s
  else Except.ok s

/-- One invocation of the `drainCollisionEvents` callback (part_001 lines
87-106).  The callback resolves both handles and then immediately logs a
template literal reading `obj1.type` and `obj2.type` — BEFORE the
`if (!obj1 || !obj2) return;` guard on the next line.  When either lookup
missed, that property read throws a `TypeError` (modelled as
`Except.error` carrying the state, which the log has not yet touched),
making the guard unreachable for exactly the pairs it was meant to skip.
When both resolve, the dispatch runs and its own exception, if any,
propagates. -/
def processPair (cfg : Config) (rnd : ℕ → ℚ × ℚ) (s : GState) (pair : ℕ × ℕ) :
    Except GState GState :=
  match findByColliderHandle s.physicsObjects pair.1,
        findByColliderHandle s.physicsObjects pair.2 with
  | some o1, some o2 => dispatchPair cfg s rnd o1 o2
  | _, _ => Except.error s

/-- `eventQueue.drainCollisionEvents(callback)`: the callback runs once per
queued pair; an exception thrown by the callback propagates out of the
drain, keeping the state mutated so far and leaving the remaining pairs
unprocessed.  The `Bool` records whether the drain was aborted by a
throw. -/
def drainEvents (cfg : Config) (rnd : ℕ → ℚ × ℚ) : GState → List (ℕ × ℕ) → GState × Bool
  | s, [] => (s, false)
  | s, pair :: rest =>
    match processPair cfg rnd s pair with
    | Except.ok s' => drainEvents cfg rnd s' rest
    | Except.error s' => (s', true)


/-- A constant `Math.random()` pair stream, for concrete evaluations. -/
def rnd0 : ℕ → ℚ × ℚ := fun _ => (1/2, 1/2)

/-- One accepted coin-position sample per spawn attempt (it maps to
`(32, 32)`, at squared distance 2048 ≥ 100 from the center). -/
def smp0 : ℕ → List (ℚ × ℚ) := fun _ => [(9/10, 9/10)]

/-- A minimal fresh game state (points 0, level 1, nothing spawned). -/
def gs0 : GState := ⟨0, 1, false, false, [], [], [], [], [], [], 0, [], 0, 0⟩

/-- A car registry record (collider handle 3), for concrete states. -/
def carE : Entity := ⟨0, 1, some 2, some 3, ObjType.car, false, (0, 0)⟩

/-- An obstacle registry record (collider handle 7), for concrete states. -/
def obsE : Entity := ⟨4, 5, some 6, some 7, ObjType.obstacle, false, (0, 0)⟩

/-- A coin registry record already marked collected, for concrete states. -/
def coinE : Entity := ⟨8, 9, some 10, some 11, ObjType.coin, true, (0, 0)⟩

/-- An uncollected coin registry record, for concrete states. -/
def coinU : Entity := ⟨8, 9, some 10, some 11, ObjType.coin, false, (0, 0)⟩


/-- C6: `getCarMaxSpeed(level)` equals the configured base max speed times
`min (1 + (level - 1) * 0.25) 2`; it is non-decreasing in the level and,
for a nonnegative configured base speed, never exceeds twice that base. -/
theorem getCarMaxSpeed_formula_monotone_capped (cfg : Config)
    (hbase : 0 ≤ cfg.carMaxSpeed) :
    (∀ level : ℕ,
      getCarMaxSpeed cfg level =
        cfg.carMaxSpeed * min (1 + ((level : ℚ) - 1) * (1/4)) 2) ∧
    (∀ l₁ l₂ : ℕ, l₁ ≤ l₂ →
      getCarMaxSpeed cfg l₁ ≤ getCarMaxSpeed cfg l₂) ∧
    (∀ level : ℕ, getCarMaxSpeed cfg level ≤ 2 * cfg.carMaxSpeed) := by
  refine ⟨fun _ => rfl, ?_, ?_⟩
  · intro l₁ l₂ hle
    unfold getCarMaxSpeed
    apply mul_le_mul_of_nonneg_left _ hbase
    apply min_le_min _ le_rfl
    have : (l₁ : ℚ) ≤ (l₂ : ℚ) := by exact_mod_cast hle
    nlinarith
  · intro level
    unfold getCarMaxSpeed
    calc cfg.carMaxSpeed * min (1 + ((level : ℚ) - 1) * (1/4)) 2
        ≤ cfg.carMaxSpeed * 2 := mul_le_mul_of_nonneg_left (min_le_right _ _) hbase
      _ = 2 * cfg.carMaxSpeed := by ring

/-- Witness for C6 at the source's default config and levels 1 ≤ 3. -/
theorem getCarMaxSpeed_formula_monotone_capped_witness :
    (∀ level : ℕ,
      getCarMaxSpeed CONFIG level =
        CONFIG.carMaxSpeed * min (1 + ((level : ℚ) - 1) * (1/4)) 2) ∧
    (∀ l₁ l₂ : ℕ, l₁ ≤ l₂ →
      getCarMaxSpeed CONFIG l₁ ≤ getCarMaxSpeed CONFIG l₂) ∧
    (∀ level : ℕ, getCarMaxSpeed CONFIG level ≤ 2 * CONFIG.carMaxSpeed) :=
  getCarMaxSpeed_formula_monotone_capped CONFIG (by decide)

/-- C7: in every frame in which `updateCarPhysics` runs its force logic
(gate `isOver && !isFalling` not taken), with the speed argument the actual
horizontal speed (`0 ≤ speed`, `speed ^ 2 = vx ^ 2 + vz ^ 2`):
(1) with the handbrake engaged and the car moving, a force `c • (vx, 0, vz)`
with `c < 0` — a damping force opposing the current horizontal velocity,
scaled by the handbrake-damping constant (`c = -handbrakeDamping * 0.2 / speed`)
— is added to the car body; (2) with the handbrake engaged and the speed
below the epsilon `0.2`, the linear velocity is hard-zeroed; (3) whenever no
drive force is computed, the body's accumulated forces are explicitly
cleared by `resetForces`. -/
theorem updateCarPhysics_handbrake_damping_and_force_clear
    (cfg : Config) (isOver isFalling : Bool) (level : ℕ) (ctl : CarCtl)
    (vx vz speed : ℚ) (q : Quat)
    (hgate : ¬(isOver = true ∧ isFalling = false))
    (hdamp : 0 < cfg.handbrakeDamping)
    (hs0 : 0 ≤ speed) (hs2 : speed ^ 2 = vx ^ 2 + vz ^ 2) :
    (ctl.handbrake = true → speed ≠ 0 →
      ∃ c : ℚ, c < 0 ∧
        PhysCmd.addForce (some (c * vx)) (some 0) (some (c * vz)) ∈
          updateCarPhysics cfg isOver isFalling level ctl vx vz speed q) ∧
    (ctl.handbrake = true → speed < 1/5 →
      PhysCmd.setLinvel 0 0 0 ∈
        updateCarPhysics cfg isOver isFalling level ctl vx vz speed q) ∧
    (driveForce cfg ctl speed (getCarMaxSpeed cfg level) (qapply q ⟨0, 0, -1⟩)
        = ⟨0, 0, 0⟩ →
      PhysCmd.resetForces ∈
        updateCarPhysics cfg isOver isFalling level ctl vx vz speed q) := by
  refine ⟨?_, ?_, ?_⟩
  · intro hb hs
    refine ⟨-cfg.handbrakeDamping * (1/5) / speed, ?_, ?_⟩
    · apply div_neg_of_neg_of_pos
      · nlinarith
      · exact lt_of_le_of_ne hs0 (Ne.symm hs)
    · unfold updateCarPhysics
      rw [if_neg hgate]
      simp only [hb, if_true, jsDiv, if_neg hs, Option.map_some', List.mem_append,
        List.mem_cons, List.mem_singleton]
      have hx : -cfg.handbrakeDamping * (1/5) / speed * vx
          = -cfg.handbrakeDamping * (1/5) * (vx / speed) := by ring
      have hz : -cfg.handbrakeDamping * (1/5) / speed * vz
          = -cfg.handbrakeDamping * (1/5) * (vz / speed) := by ring
      rw [hx, hz]
      simp
  · intro hb hlt
    unfold updateCarPhysics
    rw [if_neg hgate]
    simp only [hb, if_true, if_pos hlt, List.mem_append, List.mem_cons,
      List.mem_singleton]
    tauto
  · intro hforce
    unfold updateCarPhysics
    rw [if_neg hgate]
    simp only [hforce]
    norm_num

/-- Witness for C7: handbrake engaged, car drifting at velocity (3, 0, 4)
so the true speed is 5, identity orientation, default config. -/
theorem updateCarPhysics_handbrake_damping_and_force_clear_witness :
    ((CarCtl.mk false false false false true).handbrake = true → (5:ℚ) ≠ 0 →
      ∃ c : ℚ, c < 0 ∧
        PhysCmd.addForce (some (c * 3)) (some 0) (some (c * 4)) ∈
          updateCarPhysics CONFIG false false 1
            (CarCtl.mk false false false false true) 3 4 5 ⟨0, 0, 0, 1⟩) ∧
    ((CarCtl.mk false false false false true).handbrake = true → (5:ℚ) < 1/5 →
      PhysCmd.setLinvel 0 0 0 ∈
        updateCarPhysics CONFIG false false 1
          (CarCtl.mk false false false false true) 3 4 5 ⟨0, 0, 0, 1⟩) ∧
    (driveForce CONFIG (CarCtl.mk false false false false true) 5
        (getCarMaxSpeed CONFIG 1) (qapply ⟨0, 0, 0, 1⟩ ⟨0, 0, -1⟩) = ⟨0, 0, 0⟩ →
      PhysCmd.resetForces ∈
        updateCarPhysics CONFIG false false 1
          (CarCtl.mk false false false false true) 3 4 5 ⟨0, 0, 0, 1⟩) :=
  updateCarPhysics_handbrake_damping_and_force_clear CONFIG false false 1
    (CarCtl.mk false false false false true) 3 4 5 ⟨0, 0, 0, 1⟩
    (by simp) (by norm_num [CONFIG]) (by norm_num) (by norm_num)

/-- C10 (failing input evaluated): with the handbrake engaged and the car
stationary (`linvel = (0,0,0)`, so `speed = Math.sqrt 0 = 0`), the handbrake
branch divides the velocity components by zero (`0/0`, NaN in JS) and passes
the resulting non-finite x and z force components (`none`) to `addForce`. -/
theorem updateCarPhysics_stationary_handbrake_nonfinite :
    PhysCmd.addForce none (some 0) none ∈
      updateCarPhysics CONFIG false false 1
        (CarCtl.mk false false false false true) 0 0 0 ⟨0, 0, 0, 1⟩ := by
  norm_num [updateCarPhysics, driveForce, getCarMaxSpeed, getDampingFactor,
    jsDiv, qapply, CONFIG]
/-- `gameOver` is a no-op on a state that is already over. -/
theorem gameOver_of_over (s : GState) (b : Bool) (h : s.isOver = true) :
    gameOver s b = s := by
  unfold gameOver
  rw [if_pos h]

/-- A frame's boundary check never changes an already-over state. -/
theorem boundaryFrame_of_over (cfg : Config) (s : GState) (p : ℚ × ℚ)
    (h : s.isOver = true) : boundaryFrame cfg s p = s := by
  unfold boundaryFrame
  by_cases hg : s.isOver = false ∨ (s.isOver = true ∧ s.isFalling = true)
  · rw [if_pos hg]
    by_cases hb : cfg.groundSize / 2 < |p.1| ∨ cfg.groundSize / 2 < |p.2|
    · rw [if_pos hb, gameOver_of_over s true h]
    · rw [if_neg hb]
  · rw [if_neg hg]

/-- Folding frames over an already-over state changes nothing. -/
theorem foldl_boundaryFrame_of_over (cfg : Config) :
    ∀ (l : List (ℚ × ℚ)) (s : GState), s.isOver = true →
      l.foldl (boundaryFrame cfg) s = s := by
  intro l
  induction l with
  | nil => intro s _; rfl
  | cons p rest ih =>
    intro s hs
    rw [List.foldl_cons, boundaryFrame_of_over cfg s p hs]
    exact ih s hs

/-- C4: from a running (not-over) state, a frame whose car position leaves
the half-ground-size boundary transitions to GameOver with falling = true,
and the transition happens exactly once: folding any further out-of-bounds
frames over the resulting state returns it unchanged (repeated triggers
while already over are no-ops). -/
theorem boundaryFrame_gameOver_exactly_once (cfg : Config) (s : GState)
    (pos : ℚ × ℚ) (hover : s.isOver = false)
    (hout : cfg.groundSize / 2 < |pos.1| ∨ cfg.groundSize / 2 < |pos.2|) :
    (boundaryFrame cfg s pos).isOver = true ∧
    (boundaryFrame cfg s pos).isFalling = true ∧
    ∀ rest : List (ℚ × ℚ),
      (∀ p ∈ rest, cfg.groundSize / 2 < |p.1| ∨ cfg.groundSize / 2 < |p.2|) →
      rest.foldl (boundaryFrame cfg) (boundaryFrame cfg s pos) =
        boundaryFrame cfg s pos := by
  have hbf : boundaryFrame cfg s pos = gameOver s true := by
    unfold boundaryFrame
    rw [if_pos (Or.inl hover), if_pos hout]
  have hnot : ¬(s.isOver = true) := by rw [hover]; simp
  have hgo : (gameOver s true).isOver = true ∧ (gameOver s true).isFalling = true := by
    unfold gameOver
    rw [if_neg hnot]
    exact ⟨rfl, rfl⟩
  refine ⟨by rw [hbf]; exact hgo.1, by rw [hbf]; exact hgo.2, ?_⟩
  intro rest _
  exact foldl_boundaryFrame_of_over cfg rest _ (by rw [hbf]; exact hgo.1)

/-- Witness for C4: a fresh state, car at x = 60 beyond the default
50-unit half ground size, one further out-of-bounds frame at x = 70. -/
theorem boundaryFrame_gameOver_exactly_once_witness :
    (boundaryFrame CONFIG gs0 (60, 0)).isOver = true ∧
    (boundaryFrame CONFIG gs0 (60, 0)).isFalling = true ∧
    ∀ rest : List (ℚ × ℚ),
      (∀ p ∈ rest, CONFIG.groundSize / 2 < |p.1| ∨ CONFIG.groundSize / 2 < |p.2|) →
      rest.foldl (boundaryFrame CONFIG) (boundaryFrame CONFIG gs0 (60, 0)) =
        boundaryFrame CONFIG gs0 (60, 0) :=
  boundaryFrame_gameOver_exactly_once CONFIG gs0 (60, 0) rfl
    (Or.inl (by norm_num [CONFIG]))

/-- C2 counterexample: `collectCoin`, called directly on a coin whose
`collected` flag is already true, increments `points` again (10 → 20) and
returns normally (the total stays below the threshold, so the throwing
level-up path is not entered); the function body never consults the
flag. -/
theorem collectCoin_on_collected_increments_again :
    collectCoin CONFIG { gs0 with points := 10, physicsObjects := [coinE] }
        coinE rnd0
      = Except.ok { gs0 with
          points := 20
          physicsObjects := [coinE]
          pending := [coinE] } := by
  rfl

/-- C2 as the code implements it: the duplicate-event protection lives at
the collision-dispatch site, not inside `collectCoin` — a car-coin pair
whose coin is already marked collected is dispatched to no effect. -/
theorem dispatchPair_collected_coin_noop (cfg : Config) (s : GState)
    (rnd : ℕ → ℚ × ℚ) (o1 o2 : Entity)
    (hcase :
      (o1.etype = ObjType.car ∧ o2.etype = ObjType.coin ∧ o2.collected = true) ∨
      (o2.etype = ObjType.car ∧ o1.etype = ObjType.coin ∧ o1.collected = true)) :
    dispatchPair cfg s rnd o1 o2 = Except.ok s := by
  rcases hcase with ⟨h1, h2, h3⟩ | ⟨h1, h2, h3⟩ <;>
    simp [dispatchPair, h1, h2, h3]

/-- Witness for C2's dispatch idempotence: a car and a collected coin. -/
theorem dispatchPair_collected_coin_noop_witness :
    dispatchPair CONFIG gs0 rnd0 carE coinE = Except.ok gs0 :=
  dispatchPair_collected_coin_noop CONFIG gs0 rnd0 carE coinE
    (Or.inl ⟨rfl, rfl, rfl⟩)

/-- C3 (failing input evaluated): a collision pair whose first handle (99)
resolves to no registered entity makes the callback throw (the
`console.log` reads `.type` of `undefined` before the guard), which aborts
the drain: the remaining pair `(3, 7)` — the car-obstacle pair that alone
would have set `isOver` — is left unprocessed and the state unchanged. -/
theorem drainEvents_stale_handle_aborts :
    processPair CONFIG rnd0 { gs0 with physicsObjects := [carE, obsE] } (99, 3)
        = Except.error { gs0 with physicsObjects := [carE, obsE] } ∧
    drainEvents CONFIG rnd0 { gs0 with physicsObjects := [carE, obsE] }
        [(99, 3), (3, 7)]
        = ({ gs0 with physicsObjects := [carE, obsE] }, true) ∧
    (drainEvents CONFIG rnd0 { gs0 with physicsObjects := [carE, obsE] }
        [(3, 7)]).1.isOver = true := by
  refine ⟨rfl, rfl, rfl⟩

/-- When the incremented points reach the threshold below the level cap,
`collectCoin` calls `levelUp`, which increments the level and then throws
via the `isLoading` misbinding: the exception escapes `collectCoin` with
the level incremented and everything else — obstacle collection, world
bodies, pending queue — exactly as the synchronous bookkeeping left it. -/
theorem collectCoin_eq_levelUp_throws (cfg : Config) (s : GState) (coin : Entity)
    (rnd : ℕ → ℚ × ℚ)
    (hcond : s.points + cfg.coinValue ≥ s.level * cfg.pointsToAdvance ∧
      s.level < cfg.maxLevel) :
    collectCoin cfg s coin rnd = Except.error
      { s with
        physicsObjects := s.physicsObjects.map
          (fun e => if e.recId = coin.recId then { e with collected := true } else e)
        scene := removeFirst (fun m => m = coin.meshId) s.scene
        points := s.points + cfg.coinValue
        level := s.level + 1 } := by
  unfold collectCoin levelUp createObstacles
  dsimp only
  rw [if_pos hcond]

/-- Below the threshold (or at the level cap) `collectCoin` returns
normally: the synchronous bookkeeping plus the queued deferred removal. -/
theorem collectCoin_eq_noLevelUp (cfg : Config) (s : GState) (coin : Entity)
    (rnd : ℕ → ℚ × ℚ)
    (hcond : ¬(s.points + cfg.coinValue ≥ s.level * cfg.pointsToAdvance ∧
      s.level < cfg.maxLevel)) :
    collectCoin cfg s coin rnd = Except.ok
      { s with
        physicsObjects := s.physicsObjects.map
          (fun e => if e.recId = coin.recId then { e with collected := true } else e)
        scene := removeFirst (fun m => m = coin.meshId) s.scene
        points := s.points + cfg.coinValue
        pending := s.pending ++ [coin] } := by
  unfold collectCoin
  dsimp only
  rw [if_neg hcond]

/-- C1 (failing behavior proved): in a state with `points = level *
pointsToAdvance` and `level < maxLevel`, collecting a coin increments the
level exactly once — and then throws before spawning anything: `levelUp`
passes six arguments to the seven-parameter `createObstacles`, so the new
level binds to `isLoading` and `isLoading.obstacles = true` throws a
TypeError on the number.  The escaping state (the whole right-hand record)
leaves `obstacleBoxes`, `worldBodies` and `pending` untouched: zero
obstacles are spawned instead of the claimed `(level + 1) *
boxIncreasePerLevel` batch. -/
theorem collectCoin_threshold_throws_without_spawning (cfg : Config)
    (s : GState) (coin : Entity) (rnd : ℕ → ℚ × ℚ)
    (hpts : s.points = s.level * cfg.pointsToAdvance)
    (hlvl : s.level < cfg.maxLevel) :
    collectCoin cfg s coin rnd = Except.error
      { s with
        physicsObjects := s.physicsObjects.map
          (fun e => if e.recId = coin.recId then { e with collected := true } else e)
        scene := removeFirst (fun m => m = coin.meshId) s.scene
        points := s.points + cfg.coinValue
        level := s.level + 1 } :=
  collectCoin_eq_levelUp_throws cfg s coin rnd
    ⟨by rw [hpts]; exact Nat.le_add_right _ _, hlvl⟩

/-- Witness for C1: level 1, points 100 = 1 × pointsToAdvance; the
collection raises the level to 2 and throws with no obstacle spawned. -/
theorem collectCoin_threshold_throws_without_spawning_witness :
    collectCoin CONFIG { gs0 with points := 100 } coinU rnd0 = Except.error
      { { gs0 with points := 100 : GState } with
        physicsObjects := { gs0 with points := 100 : GState }.physicsObjects.map
          (fun e => if e.recId = coinU.recId then { e with collected := true } else e)
        scene := removeFirst (fun m => m = coinU.meshId)
          { gs0 with points := 100 : GState }.scene
        points := { gs0 with points := 100 : GState }.points + CONFIG.coinValue
        level := { gs0 with points := 100 : GState }.level + 1 } :=
  collectCoin_threshold_throws_without_spawning CONFIG
    { gs0 with points := 100 } coinU rnd0 rfl (by decide)

/-- Every position the sampling loop of `spawnCoin` accepts from in-range
`Math.random()` draws lies in the 80-unit square and at squared distance at
least 100 from the center. -/
theorem pickPos_mem_spec :
    ∀ samples : List (ℚ × ℚ),
      (∀ r ∈ samples, 0 ≤ r.1 ∧ r.1 < 1 ∧ 0 ≤ r.2 ∧ r.2 < 1) →
      ∀ x z : ℚ, pickPos samples = some (x, z) →
        |x| ≤ 40 ∧ |z| ≤ 40 ∧ 100 ≤ x ^ 2 + z ^ 2 := by
  intro samples
  induction samples with
  | nil =>
    intro _ x z h
    simp [pickPos] at h
  | cons r rest ih =>
    intro hs x z h
    simp only [pickPos] at h
    by_cases hc : ((r.1 - 1/2) * 80) ^ 2 + ((r.2 - 1/2) * 80) ^ 2 < 100
    · rw [if_pos hc] at h
      exact ih (fun p hp => hs p (List.mem_cons_of_mem r hp)) x z h
    · rw [if_neg hc] at h
      obtain ⟨hr1, hr2, hr3, hr4⟩ := hs r (List.mem_cons_self r rest)
      injection h with h'
      have hx : (r.1 - 1/2) * 80 = x := congrArg Prod.fst h'
      have hz : (r.2 - 1/2) * 80 = z := congrArg Prod.snd h'
      subst hx
      subst hz
      refine ⟨abs_le.mpr ⟨by nlinarith, by nlinarith⟩,
        abs_le.mpr ⟨by nlinarith, by nlinarith⟩, not_lt.mp hc⟩

/-- C8: `spawnCoin` leaves the state exactly unchanged whenever the game is
over or the coin count exceeds `coinBaseCount * level`; otherwise the coin
it appends sits within the 80-unit square (`|x| ≤ 40`, `|z| ≤ 40`) and at
distance at least 10 from the arena center (stated on squares:
`100 ≤ x^2 + z^2`, equivalent to `Math.sqrt (x^2+z^2) ≥ 10`). -/
theorem spawnCoin_rejects_or_spawns_in_bounds (cfg : Config) (s : GState)
    (samples : List (ℚ × ℚ))
    (hsamp : ∀ r ∈ samples, 0 ≤ r.1 ∧ r.1 < 1 ∧ 0 ≤ r.2 ∧ r.2 < 1) :
    (s.isOver = true ∨ s.coins.length > cfg.coinBaseCount * s.level →
      spawnCoin cfg s samples = some s) ∧
    (¬(s.isOver = true ∨ s.coins.length > cfg.coinBaseCount * s.level) →
      ∀ s', spawnCoin cfg s samples = some s' →
        ∃ c : CoinRec, s'.coins = s.coins ++ [c] ∧
          |c.pos.1| ≤ 40 ∧ |c.pos.2| ≤ 40 ∧ 100 ≤ c.pos.1 ^ 2 + c.pos.2 ^ 2) := by
  constructor
  · intro hg
    unfold spawnCoin
    rw [if_pos hg]
  · intro hg s' hsp
    unfold spawnCoin at hsp
    rw [if_neg hg] at hsp
    cases hp : pickPos samples with
    | none =>
      rw [hp] at hsp
      exact absurd hsp (by simp)
    | some p =>
      rw [hp] at hsp
      have hspec := pickPos_mem_spec samples hsamp p.1 p.2 (by rw [hp])
      refine ⟨⟨s.nextId + 1, s.nextId, s.nextId + 3, s.nextId + 5, false, p⟩,
        ?_, hspec.1, hspec.2.1, hspec.2.2⟩
      injection hsp with h'
      rw [← h']

/-- Witness for C8: a fresh state (not over, no coins) and the single
sample mapping to position (32, 32). -/
theorem spawnCoin_rejects_or_spawns_in_bounds_witness :
    (gs0.isOver = true ∨ gs0.coins.length > CONFIG.coinBaseCount * gs0.level →
      spawnCoin CONFIG gs0 [(9/10, 9/10)] = some gs0) ∧
    (¬(gs0.isOver = true ∨ gs0.coins.length > CONFIG.coinBaseCount * gs0.level) →
      ∀ s', spawnCoin CONFIG gs0 [(9/10, 9/10)] = some s' →
        ∃ c : CoinRec, s'.coins = gs0.coins ++ [c] ∧
          |c.pos.1| ≤ 40 ∧ |c.pos.2| ≤ 40 ∧ 100 ≤ c.pos.1 ^ 2 + c.pos.2 ^ 2) :=
  spawnCoin_rejects_or_spawns_in_bounds CONFIG gs0 [(9/10, 9/10)]
    (by norm_num)

/-- C5 counterexample: restarting from a falling game-over leaves
`isFalling` true — `resetGame` clears only `isOver`, never `isFalling` —
and the restart itself aborts: `createScene` throws (nine-argument call,
`RAPIER` parameter undefined), so the state at which the TypeError escapes
still carries `isFalling = true`, with only the new ground mesh (id 0) in
the scene and no new coin-spawn timer. -/
theorem restartGame_keeps_isFalling :
    restartGame CONFIG
        { gs0 with isOver := true, isFalling := true, nextTimerId := 1 }
        rnd0 smp0
      = some (Except.error { gs0 with
          isFalling := true
          scene := [0]
          nextTimerId := 1
          nextId := 1 }) ∧
    ({ gs0 with isFalling := true, scene := [0], nextTimerId := 1, nextId := 1 : GState }).isFalling = true := by
  exact ⟨rfl, rfl⟩

/-- C5 (amended): `restartGame` cancels the pending coin-spawn interval
and runs `resetGame` — after which points are 0, the level is 1, `isOver`
is false and the coin and obstacle collections are empty — and then
throws inside `createScene` before any scene rebuild or spawn runs.  The
escaping state (the right-hand record) keeps those reset values; the
pre-restart interval is no longer active (and no new one was installed),
so the previously scheduled timer never fires; `isFalling` keeps its
pre-restart value — it is never reset (see the counterexample). -/
theorem restartGame_resets_state (cfg : Config) (s : GState)
    (rnd : ℕ → ℚ × ℚ) (samples : ℕ → List (ℚ × ℚ)) :
    restartGame cfg s rnd samples = some (Except.error
      { s with
        points := 0
        level := 1
        isOver := false
        physicsObjects := []
        coins := []
        obstacleBoxes := []
        scene := [s.nextId]
        activeTimers := s.activeTimers.filter (fun t => t ≠ s.coinSpawnTimer)
        nextId := s.nextId + 1 }) ∧
    s.coinSpawnTimer ∉ s.activeTimers.filter (fun t => t ≠ s.coinSpawnTimer) := by
  refine ⟨rfl, ?_⟩
  simp [List.mem_filter]

/-- Setting a coin's `collected` flag changes no record identity. -/
theorem map_recId_setCollected (l : List Entity) (cid : ℕ) :
    (l.map (fun e => if e.recId = cid then { e with collected := true } else e)).map
        Entity.recId
      = l.map Entity.recId := by
  induction l with
  | nil => rfl
  | cons e t ih =>
    simp only [List.map_cons, ih]
    congr 1
    by_cases h : e.recId = cid <;> simp [h]

/-- Splicing out the first record with a given identity removes that
identity entirely when the identities are duplicate-free. -/
theorem removeFirst_recId_not_mem (cid : ℕ) :
    ∀ l : List Entity, (l.map Entity.recId).Nodup →
      cid ∉ (removeFirst (fun e => e.recId = cid) l).map Entity.recId := by
  intro l
  induction l with
  | nil =>
    intro _
    simp [removeFirst]
  | cons e t ih =>
    intro hnd
    simp only [List.map_cons, List.nodup_cons] at hnd
    by_cases h : e.recId = cid
    · simp only [removeFirst, if_pos h]
      rw [← h]
      exact hnd.1
    · simp only [removeFirst, if_neg h]
      simp only [List.map_cons, List.mem_cons]
      rintro (hc | hm)
      · exact h hc.symm
      · exact ih hnd.2 hm


/-- `runCoinRemoval`'s effect on the physics world, for a coin that carries
a body handle: every copy of that handle is filtered out. -/
theorem runCoinRemoval_worldBodies (t : GState) (coin : Entity) (h : ℕ)
    (hb : coin.bodyHandle = some h) :
    (runCoinRemoval t coin).worldBodies
      = t.worldBodies.filter (fun b => b ≠ h) := by
  unfold runCoinRemoval
  rw [hb]

/-- `runCoinRemoval`'s effect on the registry: the first record with the
coin's identity is spliced out. -/
theorem runCoinRemoval_physicsObjects (t : GState) (coin : Entity) :
    (runCoinRemoval t coin).physicsObjects
      = removeFirst (fun e => e.recId = coin.recId) t.physicsObjects := rfl

/-- C9 (refuted as stated; the deferral holds only off the threshold):
when `collectCoin` returns normally — which it does exactly when the new
total stays below `level * pointsToAdvance` or the level cap is reached —
the coin's rigid body is still in the physics world, its registry record
is still in `physicsObjects` (only the `collected` flag set), the `coins`
array is untouched, and the structural removal sits queued as the deferred
`setTimeout` continuation; only running that continuation
(`runCoinRemoval`) takes the body out of the world and the record out of
the registry.  But when the collection crosses the threshold, `collectCoin`
throws out of the `levelUp()` call of part_001 line 294 — BEFORE the
`setTimeout` of line 296 runs — so the deferred removal is never
scheduled: the escaping state has the pending queue unchanged, with the
coin's body still in the world and its record still registered, and
nothing will ever remove them. -/
theorem collectCoin_removal_deferred_only_off_threshold (cfg : Config)
    (s : GState) (coin : Entity) (rnd : ℕ → ℚ × ℚ) (h : ℕ)
    (hcoin : coin ∈ s.physicsObjects)
    (hb : coin.bodyHandle = some h)
    (hmem : h ∈ s.worldBodies)
    (hnd : (s.physicsObjects.map Entity.recId).Nodup) :
    (∀ s', collectCoin cfg s coin rnd = Except.ok s' →
      h ∈ s'.worldBodies ∧
      coin.recId ∈ s'.physicsObjects.map Entity.recId ∧
      (∃ e ∈ s'.physicsObjects, e.recId = coin.recId ∧ e.collected = true) ∧
      s'.coins = s.coins ∧
      coin ∈ s'.pending ∧
      h ∉ (runCoinRemoval s' coin).worldBodies ∧
      coin.recId ∉ (runCoinRemoval s' coin).physicsObjects.map Entity.recId) ∧
    (∀ s', collectCoin cfg s coin rnd = Except.error s' →
      s'.pending = s.pending ∧
      h ∈ s'.worldBodies ∧
      coin.recId ∈ s'.physicsObjects.map Entity.recId) := by
  by_cases hc : s.points + cfg.coinValue ≥ s.level * cfg.pointsToAdvance ∧
      s.level < cfg.maxLevel
  · constructor
    · intro s' hs'
      rw [collectCoin_eq_levelUp_throws cfg s coin rnd hc] at hs'
      exact Except.noConfusion hs'
    · intro s' hs'
      rw [collectCoin_eq_levelUp_throws cfg s coin rnd hc] at hs'
      injection hs' with he
      subst he
      refine ⟨rfl, hmem, ?_⟩
      show coin.recId ∈ (s.physicsObjects.map
        (fun e => if e.recId = coin.recId then { e with collected := true }
                  else e)).map Entity.recId
      rw [map_recId_setCollected]
      exact List.mem_map_of_mem _ hcoin
  · constructor
    · intro s' hs'
      rw [collectCoin_eq_noLevelUp cfg s coin rnd hc] at hs'
      injection hs' with he
      subst he
      refine ⟨hmem, ?_, ?_, rfl, ?_, ?_, ?_⟩
      · show coin.recId ∈ (s.physicsObjects.map
          (fun e => if e.recId = coin.recId then { e with collected := true }
                    else e)).map Entity.recId
        rw [map_recId_setCollected]
        exact List.mem_map_of_mem _ hcoin
      · have hm := List.mem_map_of_mem
          (fun e => if e.recId = coin.recId then { e with collected := true }
                    else e) hcoin
        dsimp only at hm
        rw [if_pos rfl] at hm
        exact ⟨_, hm, rfl, rfl⟩
      · exact List.mem_append_right _ (List.mem_singleton.mpr rfl)
      · rw [runCoinRemoval_worldBodies _ _ _ hb]
        simp [List.mem_filter]
      · rw [runCoinRemoval_physicsObjects]
        apply removeFirst_recId_not_mem
        show ((s.physicsObjects.map
          (fun e => if e.recId = coin.recId then { e with collected := true }
                    else e)).map Entity.recId).Nodup
        rw [map_recId_setCollected]
        exact hnd
    · intro s' hs'
      rw [collectCoin_eq_noLevelUp cfg s coin rnd hc] at hs'
      exact Except.noConfusion hs'

/-- Witness for C9: a state whose registry holds one uncollected coin with
body handle 10 present in the physics world; at 0 points the collection
stays below the threshold, so the normal-return branch fires. -/
theorem collectCoin_removal_deferred_only_off_threshold_witness :
    (∀ s', collectCoin CONFIG
        { gs0 with physicsObjects := [coinU], worldBodies := [10] }
        coinU rnd0 = Except.ok s' →
      10 ∈ s'.worldBodies ∧
      coinU.recId ∈ s'.physicsObjects.map Entity.recId ∧
      (∃ e ∈ s'.physicsObjects, e.recId = coinU.recId ∧ e.collected = true) ∧
      s'.coins = ({ gs0 with physicsObjects := [coinU], worldBodies := [10] } : GState).coins ∧
      coinU ∈ s'.pending ∧
      10 ∉ (runCoinRemoval s' coinU).worldBodies ∧
      coinU.recId ∉ (runCoinRemoval s' coinU).physicsObjects.map Entity.recId) ∧
    (∀ s', collectCoin CONFIG
        { gs0 with physicsObjects := [coinU], worldBodies := [10] }
        coinU rnd0 = Except.error s' →
      s'.pending = ({ gs0 with physicsObjects := [coinU], worldBodies := [10] } : GState).pending ∧
      10 ∈ s'.worldBodies ∧
      coinU.recId ∈ s'.physicsObjects.map Entity.recId) :=
  collectCoin_removal_deferred_only_off_threshold CONFIG
    { gs0 with physicsObjects := [coinU], worldBodies := [10] }
    coinU rnd0 10
    (List.mem_singleton.mpr rfl) rfl (List.mem_singleton.mpr rfl) (by simp)
